import Mathlib

/-!
Verification of the genshi-studio coordination scripts against their
natural-language specification.

The repository's one structural component, the `CommunicationHub`
(pub/sub message hub with addressed/broadcast delivery, priority levels and
threaded conversations), is implemented outside this repository: the scripts
hub is imported from `src.core.agent_communication_hub` and exercised.  Its
model below is therefore written from the specification's words (section 3
data model, section 4.1 operations, section 7 error kinds); each such
definition carries a doc comment starting `Modelled from the spec:`.

The `CommunicationAnalyzer` scoring code
(`genshi_studio_communication_coordinator.py`) and the progress-check
functions (`monitor_progress.py`) are present in the repository and are
embedded directly from the source.  Python floats are modelled as `ℚ`;
Python `int()` truncation of the non-negative percentage values is modelled
as `Nat` floor division (exact for the checklist sizes that occur).
-/

/-- Modelled from the spec: the enumerated message kinds of the data model
(status update, task assignment, knowledge share, collaboration request,
help request, result notification, system alert, error report). -/
inductive MessageType where
  | STATUS_UPDATE
  | TASK_ASSIGNMENT
  | KNOWLEDGE_SHARE
  | COLLABORATION_REQUEST
  | HELP_REQUEST
  | RESULT_NOTIFICATION
  | SYSTEM_ALERT
  | ERROR_REPORT
deriving DecidableEq, Repr

/-- The `.value` string of a message kind, as used by the analyzer's
`by_type` dictionary keys. -/
def MessageType.value : MessageType → String
  | .STATUS_UPDATE => "status_update"
  | .TASK_ASSIGNMENT => "task_assignment"
  | .KNOWLEDGE_SHARE => "knowledge_share"
  | .COLLABORATION_REQUEST => "collaboration_request"
  | .HELP_REQUEST => "help_request"
  | .RESULT_NOTIFICATION => "result_notification"
  | .SYSTEM_ALERT => "system_alert"
  | .ERROR_REPORT => "error_report"

/-- Modelled from the spec: the ordered priority levels
(normal < high < urgent). -/
inductive MessagePriority where
  | NORMAL
  | HIGH
  | URGENT
deriving DecidableEq, Repr

/-- The `.name` string of a priority, as recorded in the analyzer's log. -/
def MessagePriority.name : MessagePriority → String
  | .NORMAL => "NORMAL"
  | .HIGH => "HIGH"
  | .URGENT => "URGENT"

/-- Modelled from the spec: a Message carries a unique identifier, sender,
optional recipient (absent = broadcast), kind, priority, structured
key-value content, optional subject, optional thread identifier and a
creation timestamp; immutable after creation.  Identifiers and timestamps
are logical (drawn from the hub's message counter, which increases with
every send, so identifier order is send order). -/
structure Message where
  id : Nat
  sender_id : String
  recipient_id : Option String
  message_type : MessageType
  priority : MessagePriority
  content : List (String × String)
  subject : Option String
  thread_id : Option String
  timestamp : Nat
deriving DecidableEq, Repr

/-- Modelled from the spec: a Thread has a unique identifier, title, a
mutable set of participant identifiers (grows as agents join), a context
payload and a creation timestamp. -/
structure HubThread where
  id : String
  title : String
  participants : Finset String
  context : List (String × String)
  created : Nat
deriving DecidableEq

/-- Modelled from the spec: the four error kinds of section 7. -/
inductive HubError where
  | InvalidStateError
  | UnknownRecipientError
  | NotFoundError
  | DuplicateThreadError
deriving DecidableEq, Repr

/-- Modelled from the spec: the hub's in-memory state: started flag, agent
registrations (identifier with capability tags), current subscribers,
per-agent inboxes, the append-only message log, the thread table, the
message-identifier counter and the count of send/broadcast calls since the
last `start()`.  Subscriber callbacks are not representable in a shallow
embedding; only the subscriber registry (which determines broadcast
delivery) is kept. -/
structure HubState where
  started : Bool
  registered : List (String × List String)
  subscribers : List String
  inbox : String → List Message
  log : List Message
  threads : List (String × HubThread)
  nextMsgId : Nat
  totalSinceStart : Nat

namespace Hub

/-- Modelled from the spec: the hub before `start()` is called. -/
def initHub : HubState :=
  { started := false
    registered := []
    subscribers := []
    inbox := fun _ => []
    log := []
    threads := []
    nextMsgId := 0
    totalSinceStart := 0 }

/-- Association-list lookup for the thread table (first match wins). -/
def lookupThread (tid : String) : List (String × HubThread) → Option HubThread
  | [] => none
  | (k, th) :: rest => if tid = k then some th else lookupThread tid rest

/-- Modelled from the spec: `start()` enables queuing and delivery; the
statistics property of section 8 counts messages "since `start()`", so the
send/broadcast counter is reset here. -/
def hubStart (σ : HubState) : HubState :=
  { σ with started := true, totalSinceStart := 0 }

/-- Modelled from the spec: `stop()` disables all operations. -/
def hubStop (σ : HubState) : HubState :=
  { σ with started := false }

/-- The Message a send constructs in state `σ`: it receives the next free
identifier, and its creation timestamp is the same logical instant. -/
def mkMessage (σ : HubState) (sender : String) (recipient : Option String)
    (k : MessageType) (c : List (String × String)) (subj : Option String)
    (p : MessagePriority) (tid : Option String) : Message :=
  { id := σ.nextMsgId
    sender_id := sender
    recipient_id := recipient
    message_type := k
    priority := p
    content := c
    subject := subj
    thread_id := tid
    timestamp := σ.nextMsgId }

/-- Modelled from the spec: `send` constructs a Message, appends it to the
global log, and delivers it to the addressed recipient's inbox (or to all
current subscribers' inboxes if no recipient is given); fails with
`InvalidStateError` outside the start/stop bracket.  The spec leaves the
`UnknownRecipientError` policy as an explicit open question ("could also be
silently accepted"); the accepting policy is modelled. -/
def send (sender : String) (recipient : Option String) (k : MessageType)
    (c : List (String × String)) (subj : Option String) (p : MessagePriority)
    (tid : Option String) (σ : HubState) : Except HubError Nat × HubState :=
  if σ.started then
    let m := mkMessage σ sender recipient k c subj p tid
    let newInbox : String → List Message :=
      match recipient with
      | some r => fun a => if a = r then σ.inbox a ++ [m] else σ.inbox a
      | none => fun a => if a ∈ σ.subscribers then σ.inbox a ++ [m] else σ.inbox a
    (.ok m.id,
      { σ with
          log := σ.log ++ [m]
          inbox := newInbox
          nextMsgId := σ.nextMsgId + 1
          totalSinceStart := σ.totalSinceStart + 1 })
  else (.error .InvalidStateError, σ)

/-- Modelled from the spec: `broadcast` is the convenience wrapper
equivalent to `send` with no explicit recipient. -/
def broadcast (sender : String) (k : MessageType) (c : List (String × String))
    (subj : Option String) (p : MessagePriority) (tid : Option String)
    (σ : HubState) : Except HubError Nat × HubState :=
  send sender none k c subj p tid σ

/-- An automatically generated thread identifier: one character longer than
every identifier in use, hence never colliding (the spec promises that
auto-generated identifiers never collide). -/
def freshAuto (used : List String) : String :=
  String.mk (List.replicate ((used.map String.length).foldr max 0 + 1) 't')

/-- Modelled from the spec: `create_thread` allocates a new Thread; it fails
with `DuplicateThreadError` only if the caller supplies a colliding explicit
identifier (auto-generated identifiers never collide), and with
`InvalidStateError` outside the start/stop bracket. -/
def create_thread (title : String) (parts : Finset String)
    (ctx : List (String × String)) (explicitId : Option String)
    (σ : HubState) : Except HubError String × HubState :=
  if σ.started then
    match explicitId with
    | some tid =>
        match lookupThread tid σ.threads with
        | some _ => (.error .DuplicateThreadError, σ)
        | none =>
            (.ok tid,
              { σ with threads := σ.threads ++
                  [(tid, ⟨tid, title, parts, ctx, σ.nextMsgId⟩)] })
    | none =>
        let tid := freshAuto (σ.threads.map Prod.fst)
        (.ok tid,
          { σ with threads := σ.threads ++
              [(tid, ⟨tid, title, parts, ctx, σ.nextMsgId⟩)] })
  else (.error .InvalidStateError, σ)

/-- In-place update of one thread's participant set. -/
def addParticipantTable (tid : String) (agent : String) :
    List (String × HubThread) → List (String × HubThread)
  | [] => []
  | (k, th) :: rest =>
      if k = tid then
        (k, { th with participants := insert agent th.participants }) :: rest
      else (k, th) :: addParticipantTable tid agent rest

/-- Modelled from the spec: agents joining a thread is the only permitted
thread mutation (the coordinator performs it by direct mutation of
`hub.threads[tid].participants`); a thread lookup miss is `NotFoundError`. -/
def add_thread_participant (tid : String) (agent : String) (σ : HubState) :
    Except HubError Unit × HubState :=
  if σ.started then
    match lookupThread tid σ.threads with
    | none => (.error .NotFoundError, σ)
    | some _ => (.ok (), { σ with threads := addParticipantTable tid agent σ.threads })
  else (.error .InvalidStateError, σ)

/-- Find a message in the append-only log by identifier. -/
def find_message (mid : Nat) (log : List Message) : Option Message :=
  log.find? (fun m => m.id == mid)

/-- Modelled from the spec: `reply_to_message` looks up the parent's
sender/thread and sends a new message addressed back to that sender within
the same thread; it fails with `NotFoundError` if the parent identifier is
unknown.  The spec gives the reply no kind of its own; the parent's kind is
reused, at normal priority. -/
def reply_to_message (sender : String) (parentId : Nat)
    (c : List (String × String)) (subj : Option String) (σ : HubState) :
    Except HubError Nat × HubState :=
  if σ.started then
    match find_message parentId σ.log with
    | none => (.error .NotFoundError, σ)
    | some parent =>
        send sender (some parent.sender_id) parent.message_type c subj
          .NORMAL parent.thread_id σ
  else (.error .InvalidStateError, σ)

/-- Modelled from the spec: `get_messages` returns the agent's pending
inbox, oldest-first, up to `limit`, and does not remove the messages
(the peek semantics the spec chooses in section 4.1; section 9 flags the
drain alternative as an open question). -/
def get_messages (agent : String) (limit : Nat) (σ : HubState) :
    Except HubError (List Message) × HubState :=
  if σ.started then (.ok ((σ.inbox agent).take limit), σ)
  else (.error .InvalidStateError, σ)

/-- Modelled from the spec: `subscribe` registers an agent to receive every
broadcast in its inbox (the handler callback itself is outside a shallow
embedding). -/
def subscribe (agent : String) (σ : HubState) : Except HubError Unit × HubState :=
  if σ.started then
    (.ok (),
      { σ with subscribers :=
          if agent ∈ σ.subscribers then σ.subscribers else σ.subscribers ++ [agent] })
  else (.error .InvalidStateError, σ)

/-- Modelled from the spec: `unsubscribe` removes a subscriber. -/
def unsubscribe (agent : String) (σ : HubState) : Except HubError Unit × HubState :=
  if σ.started then
    (.ok (), { σ with subscribers := σ.subscribers.filter (· ≠ agent) })
  else (.error .InvalidStateError, σ)

/-- Modelled from the spec: ephemeral agent registration (identifier with
declared capability tags), used only for addressing. -/
def register_agent (agent : String) (capabilities : List String) (σ : HubState) :
    Except HubError Unit × HubState :=
  if σ.started then
    (.ok (), { σ with registered := σ.registered ++ [(agent, capabilities)] })
  else (.error .InvalidStateError, σ)

/-- Modelled from the spec: the aggregate returned by
`get_communication_stats`: total message count since `start()`, per-kind
counts, per-sender counts and thread count (the average delivery latency is
wall-clock time, outside a shallow embedding). -/
structure CommStats where
  total : Nat
  by_kind : List (String × Nat)
  by_sender : List (String × Nat)
  thread_count : Nat
deriving DecidableEq, Repr

/-- Increment the count stored under a key, inserting it at 1 if absent. -/
def bumpCount (key : String) : List (String × Nat) → List (String × Nat)
  | [] => [(key, 1)]
  | (k, n) :: rest =>
      if key = k then (k, n + 1) :: rest else (k, n) :: bumpCount key rest

/-- Modelled from the spec: `get_communication_stats`. -/
def get_communication_stats (σ : HubState) : CommStats :=
  { total := σ.totalSinceStart
    by_kind := σ.log.foldl (fun acc m => bumpCount m.message_type.value acc) []
    by_sender := σ.log.foldl (fun acc m => bumpCount m.sender_id acc) []
    thread_count := σ.threads.length }

end Hub

/-- One invocation of a hub operation, so that behaviour over arbitrary call
sequences can be stated. -/
inductive HubOp where
  | start
  | stop
  | register_agent (agent : String) (capabilities : List String)
  | subscribe (agent : String)
  | unsubscribe (agent : String)
  | send (sender : String) (recipient : Option String) (k : MessageType)
      (c : List (String × String)) (subj : Option String)
      (p : MessagePriority) (tid : Option String)
  | broadcast (sender : String) (k : MessageType) (c : List (String × String))
      (subj : Option String) (p : MessagePriority) (tid : Option String)
  | create_thread (title : String) (parts : Finset String)
      (ctx : List (String × String)) (explicitId : Option String)
  | add_thread_participant (tid : String) (agent : String)
  | reply_to_message (sender : String) (parentId : Nat)
      (c : List (String × String)) (subj : Option String)
  | get_messages (agent : String) (limit : Nat)

/-- The result value of a hub operation, unified over the operations. -/
inductive HubOutput where
  | msgId (id : Nat)
  | threadId (tid : String)
  | msgs (l : List Message)
  | done
deriving DecidableEq, Repr

namespace Hub

/-- Apply one operation to the hub state, returning its result and the new
state (the state is unchanged whenever the operation fails). -/
def applyOp : HubOp → HubState → Except HubError HubOutput × HubState
  | .start, σ => (.ok .done, hubStart σ)
  | .stop, σ => (.ok .done, hubStop σ)
  | .register_agent a caps, σ =>
      let r := register_agent a caps σ
      (r.1.map fun _ => .done, r.2)
  | .subscribe a, σ =>
      let r := subscribe a σ
      (r.1.map fun _ => .done, r.2)
  | .unsubscribe a, σ =>
      let r := unsubscribe a σ
      (r.1.map fun _ => .done, r.2)
  | .send s rcpt k c subj p tid, σ =>
      let r := send s rcpt k c subj p tid σ
      (r.1.map .msgId, r.2)
  | .broadcast s k c subj p tid, σ =>
      let r := broadcast s k c subj p tid σ
      (r.1.map .msgId, r.2)
  | .create_thread title parts ctx eid, σ =>
      let r := create_thread title parts ctx eid σ
      (r.1.map .threadId, r.2)
  | .add_thread_participant tid a, σ =>
      let r := add_thread_participant tid a σ
      (r.1.map fun _ => .done, r.2)
  | .reply_to_message s pid c subj, σ =>
      let r := reply_to_message s pid c subj σ
      (r.1.map .msgId, r.2)
  | .get_messages a limit, σ =>
      let r := get_messages a limit σ
      (r.1.map .msgs, r.2)

/-- Run a sequence of hub operations from a state. -/
def run : List HubOp → HubState → HubState
  | [], σ => σ
  | op :: rest, σ => run rest (applyOp op σ).2

/-- Whether an operation is a `send` or `broadcast` call. -/
def isSendOp : HubOp → Bool
  | .send _ _ _ _ _ _ _ => true
  | .broadcast _ _ _ _ _ _ => true
  | _ => false

/-- Whether an operation result is a success. -/
def resOk : Except HubError HubOutput → Bool
  | .ok _ => true
  | .error _ => false

/-- The number of send/broadcast calls in a sequence that succeed when the
sequence is run from the given state. -/
def okSends : List HubOp → HubState → Nat
  | [], _ => 0
  | op :: rest, σ =>
      (if isSendOp op ∧ resOk (applyOp op σ).1 then 1 else 0) +
        okSends rest (applyOp op σ).2

end Hub

/-- One entry of `CommunicationAnalyzer.message_log`: the projection of a
message that `analyze_message` appends
(`genshi_studio_communication_coordinator.py`, lines 67-76; the dictionary
key `"type"` is spelled `mtype` here). -/
structure LogEntry where
  id : Nat
  sender : String
  recipient : Option String
  mtype : String
  priority : String
  timestamp : Nat
  subject : Option String
  thread_id : Option String
deriving DecidableEq, Repr

/-- The mutable state of `CommunicationAnalyzer`
(`genshi_studio_communication_coordinator.py`, lines 52-63): the message log
plus the `communication_metrics` dictionary, whose `by_type` and `by_agent`
entries are association lists. -/
structure AnalyzerState where
  message_log : List LogEntry
  total_messages : Nat
  by_type : List (String × Nat)
  by_agent : List (String × Nat)
  response_times : List Nat
  thread_count : Nat
  collaboration_requests : Nat
  knowledge_shares : Nat
  help_requests : Nat
deriving DecidableEq, Repr

namespace CommunicationAnalyzer

/-- `CommunicationAnalyzer.__init__`: empty log, all counters zero. -/
def initState : AnalyzerState :=
  { message_log := []
    total_messages := 0
    by_type := []
    by_agent := []
    response_times := []
    thread_count := 0
    collaboration_requests := 0
    knowledge_shares := 0
    help_requests := 0 }

/-- `CommunicationAnalyzer.analyze_message` (lines 65-97): append the
projected entry to the log, bump the total, the per-type and per-sender
counts, and the counter of the specific kind when it is a collaboration
request, knowledge share or help request. -/
def analyze_message (σ : AnalyzerState) (m : Message) : AnalyzerState :=
  { σ with
      message_log := σ.message_log ++
        [{ id := m.id
           sender := m.sender_id
           recipient := m.recipient_id
           mtype := m.message_type.value
           priority := m.priority.name
           timestamp := m.timestamp
           subject := m.subject
           thread_id := m.thread_id }]
      total_messages := σ.total_messages + 1
      by_type := Hub.bumpCount m.message_type.value σ.by_type
      by_agent := Hub.bumpCount m.sender_id σ.by_agent
      collaboration_requests :=
        if m.message_type = .COLLABORATION_REQUEST then
          σ.collaboration_requests + 1
        else σ.collaboration_requests
      knowledge_shares :=
        if m.message_type = .KNOWLEDGE_SHARE then σ.knowledge_shares + 1
        else σ.knowledge_shares
      help_requests :=
        if m.message_type = .HELP_REQUEST then σ.help_requests + 1
        else σ.help_requests }

/-- The sum of the counts in an association list of counters. -/
def sumCounts (l : List (String × Nat)) : Nat :=
  (l.map Prod.snd).sum

/-- `CommunicationAnalyzer._analyze_balance` (lines 141-159): classify the
spread of the per-agent counts; a zero minimum gives an infinite ratio in
the source, which falls through both comparisons to the imbalanced case. -/
def analyze_balance (σ : AnalyzerState) : String :=
  if σ.by_agent = [] then "No communication data"
  else
    match σ.by_agent.map Prod.snd with
    | [] => "No messages"
    | v :: vs =>
        let max_val := vs.foldl max v
        let min_val := vs.foldl min v
        if 0 < min_val then
          let ratio : ℚ := (max_val : ℚ) / (min_val : ℚ)
          if ratio ≤ 2 then "Well balanced"
          else if ratio ≤ 5 then "Moderately balanced"
          else "Imbalanced - some agents communicate much more than others"
        else "Imbalanced - some agents communicate much more than others"

/-- `CommunicationAnalyzer._calculate_collaboration_score` (lines 161-174). -/
def calculate_collaboration_score (σ : AnalyzerState) : ℚ :=
  if σ.total_messages = 0 then 0
  else
    let collab_ratio : ℚ := (σ.collaboration_requests : ℚ) / (σ.total_messages : ℚ)
    let knowledge_ratio : ℚ := (σ.knowledge_shares : ℚ) / (σ.total_messages : ℚ)
    let balance_bonus : ℚ := if analyze_balance σ = "Well balanced" then 1 else 1 / 2
    min 10 ((collab_ratio * 4 + knowledge_ratio * 4 + balance_bonus * 2) * 10)

/-- `CommunicationAnalyzer._calculate_knowledge_score` (lines 176-182). -/
def calculate_knowledge_score (σ : AnalyzerState) : ℚ :=
  if σ.total_messages = 0 then 0
  else
    let knowledge_ratio : ℚ := (σ.knowledge_shares : ℚ) / (σ.total_messages : ℚ)
    min 10 (knowledge_ratio * 20)

/-- `CommunicationAnalyzer._calculate_effectiveness_score` (lines 184-193). -/
def calculate_effectiveness_score (σ : AnalyzerState) : ℚ :=
  let collab_score := calculate_collaboration_score σ
  let knowledge_score := calculate_knowledge_score σ
  let help_ratio : ℚ := (σ.help_requests : ℚ) / ((max 1 σ.total_messages : Nat) : ℚ)
  let help_bonus : ℚ := min 2 (help_ratio * 10)
  min 10 ((collab_score + knowledge_score + help_bonus) / 2)

/-- `GenshiStudioCommunicationCoordinator._calculate_compliance_score`
(lines 815-843), composed with the analysis dictionary that
`generate_communication_analysis` builds from the same analyzer state (its
`summary` copies the counters and its `effectiveness_score` is
`_calculate_effectiveness_score`). -/
def calculate_compliance_score (σ : AnalyzerState) : ℚ :=
  let base : ℚ :=
    (if 0 < σ.total_messages then 3 else 0) +
    (if 0 < σ.collaboration_requests then 2 else 0) +
    (if 0 < σ.knowledge_shares then 2 else 0) +
    (if 0 < σ.help_requests then 1 else 0)
  min 10 (base + calculate_effectiveness_score σ / 10 * 2)

end CommunicationAnalyzer

/-- One subtask row of a progress dictionary (`monitor_progress.py`). -/
structure Subtask where
  name : String
  status : String
deriving DecidableEq, Repr

/-- A progress dictionary as returned by the check functions of
`monitor_progress.py`: agent, task, subtask rows, completion percentage and
overall status. -/
structure ProgressReport where
  agent : String
  task : String
  subtasks : List Subtask
  completion_percentage : Nat
  status : String
deriving DecidableEq, Repr

/-- The progress dictionary of `check_testing_framework`, which additionally
carries the `e2e_ready` flag. -/
structure TestingProgressReport where
  agent : String
  task : String
  subtasks : List Subtask
  completion_percentage : Nat
  status : String
  e2e_ready : Bool
deriving DecidableEq, Repr

namespace MonitorProgress

/-- The number of checked paths that exist, for a checklist of
(name, path) pairs under a filesystem-existence oracle `fs`. -/
def completedCount (fs : String → Bool) (checks : List (String × String)) : Nat :=
  (checks.filter (fun c => fs c.2)).length

/-- The subtask rows built by the check loop: status `"completed"` for an
existing path, `"pending"` otherwise. -/
def subtasksOf (fs : String → Bool) (checks : List (String × String)) :
    List Subtask :=
  checks.map fun c =>
    { name := c.1, status := if fs c.2 then "completed" else "pending" }

/-- The common body of the four check functions of `monitor_progress.py`:
walk the checklist, count existing paths, set
`completion_percentage = int(completed / len(checks) * 100)` (exact floor
for the checklist lengths 7 and 9 that occur) and
`status = "in_progress" if completed > 0 else "pending"`. -/
def mkProgress (agent task : String) (checks : List (String × String))
    (fs : String → Bool) : ProgressReport :=
  let completed := completedCount fs checks
  { agent := agent
    task := task
    subtasks := subtasksOf fs checks
    completion_percentage := completed * 100 / checks.length
    status := if 0 < completed then "in_progress" else "pending" }

/-- The checklist of `check_repository_setup` (lines 23-33). -/
def repository_checks : List (String × String) :=
  let d := "/Users/homeserver/ai-creative-team/projects/genshi-studio/"
  [("package.json", d ++ "package.json"),
   ("tsconfig.json", d ++ "tsconfig.json"),
   ("vite.config.js", d ++ "vite.config.js"),
   (".gitignore", d ++ ".gitignore"),
   ("README.md", d ++ "README.md"),
   ("playwright.config.ts", d ++ "playwright.config.ts"),
   ("src directory", d ++ "src"),
   ("tests directory", d ++ "tests"),
   ("public directory", d ++ "public")]

/-- The checklist of `check_graphics_engine` (lines 60-68). -/
def engine_checks : List (String × String) :=
  let d := "/Users/homeserver/ai-creative-team/projects/genshi-studio/src/engine/"
  [("WebGL Renderer", d ++ "renderer.ts"),
   ("Canvas Manager", d ++ "canvas.ts"),
   ("Shape System", d ++ "shapes.ts"),
   ("Transform System", d ++ "transforms.ts"),
   ("Layer Manager", d ++ "layers.ts"),
   ("Animation Engine", d ++ "animation.ts"),
   ("Performance Monitor", d ++ "performance.ts")]

/-- The checklist of `check_ui_components` (lines 95-103). -/
def component_checks : List (String × String) :=
  let d := "/Users/homeserver/ai-creative-team/projects/genshi-studio/src/components/"
  [("Tool Palette", d ++ "ToolPalette.tsx"),
   ("Properties Panel", d ++ "PropertiesPanel.tsx"),
   ("Canvas Container", d ++ "CanvasContainer.tsx"),
   ("Timeline", d ++ "Timeline.tsx"),
   ("Layer Panel", d ++ "LayerPanel.tsx"),
   ("Color Picker", d ++ "ColorPicker.tsx"),
   ("Export Dialog", d ++ "ExportDialog.tsx")]

/-- The checklist of `check_testing_framework` (lines 130-138). -/
def testing_checks : List (String × String) :=
  let d := "/Users/homeserver/ai-creative-team/projects/genshi-studio/tests/e2e/"
  [("E2E Test Setup", d ++ "setup.ts"),
   ("Canvas Tests", d ++ "canvas.spec.ts"),
   ("Tool Tests", d ++ "tools.spec.ts"),
   ("Performance Tests", d ++ "performance.spec.ts"),
   ("Accessibility Tests", d ++ "accessibility.spec.ts"),
   ("Export Tests", d ++ "export.spec.ts"),
   ("Cross-browser Tests", d ++ "cross-browser.spec.ts")]

/-- `check_repository_setup` (lines 12-48). -/
def check_repository_setup (fs : String → Bool) : ProgressReport :=
  mkProgress "DEPLOYER_002" "Repository setup and build pipeline"
    repository_checks fs

/-- `check_graphics_engine` (lines 50-83). -/
def check_graphics_engine (fs : String → Bool) : ProgressReport :=
  mkProgress "DEVELOPER_002" "High-performance graphics engine"
    engine_checks fs

/-- `check_ui_components` (lines 85-118). -/
def check_ui_components (fs : String → Bool) : ProgressReport :=
  mkProgress "DEVELOPER_003" "Responsive UI components" component_checks fs

/-- `check_testing_framework` (lines 120-160): the common body plus the
`e2e_ready` flag, which holds when some progress exists and the Playwright
configuration file is present. -/
def check_testing_framework (fs : String → Bool) : TestingProgressReport :=
  let base := mkProgress "TESTER_002" "E2E testing framework" testing_checks fs
  { agent := base.agent
    task := base.task
    subtasks := base.subtasks
    completion_percentage := base.completion_percentage
    status := base.status
    e2e_ready :=
      if 0 < base.completion_percentage then
        fs "/Users/homeserver/ai-creative-team/projects/genshi-studio/playwright.config.ts"
      else false }

end MonitorProgress

/-- Every inbox lists messages in strictly increasing identifier order (the
hub allocates identifiers in send order), and every delivered identifier is
below the hub's counter. -/
def InboxesOrdered (σ : HubState) : Prop :=
  ∀ a : String,
    ((σ.inbox a).Pairwise fun m1 m2 => m1.id < m2.id)
    ∧ ∀ m ∈ σ.inbox a, m.id < σ.nextMsgId

/-- The mutual-consistency invariant of the analyzer's counters. -/
def AnalyzerConsistent (σ : AnalyzerState) : Prop :=
  σ.total_messages = σ.message_log.length
  ∧ σ.total_messages = CommunicationAnalyzer.sumCounts σ.by_type
  ∧ σ.total_messages = CommunicationAnalyzer.sumCounts σ.by_agent
  ∧ σ.collaboration_requests + σ.knowledge_shares + σ.help_requests
      ≤ σ.total_messages

/-- A started hub in which agent `A` has sent one directed message to `B`
in thread `T`. -/
def sampleReplyState : HubState :=
  (Hub.send "A" (some "B") .STATUS_UPDATE [("x", "1")] none .HIGH (some "T")
    (Hub.hubStart Hub.initHub)).2

/-- The message `sampleReplyState` holds in its log. -/
def sampleParent : Message :=
  { id := 0
    sender_id := "A"
    recipient_id := some "B"
    message_type := .STATUS_UPDATE
    priority := .HIGH
    content := [("x", "1")]
    subject := none
    thread_id := some "T"
    timestamp := 0 }

/-- A call sequence: start, then two directed sends from `A` to `B`. -/
def twoSendsToB : List HubOp :=
  [.start,
   .send "A" (some "B") .STATUS_UPDATE [("x", "1")] none .NORMAL none,
   .send "A" (some "B") .STATUS_UPDATE [("x", "2")] none .NORMAL none]

/-- A call sequence: start, then one directed send from `A` to `B`. -/
def oneSendToB : List HubOp :=
  [.start, .send "A" (some "B") .STATUS_UPDATE [("x", "1")] none .NORMAL none]

/-- A sequence consisting of one send and one broadcast call. -/
def sendThenBroadcast : List HubOp :=
  [.send "A" (some "B") .STATUS_UPDATE [] none .NORMAL none,
   .broadcast "A" .SYSTEM_ALERT [] none .URGENT none]

/-- An analyzer state with a help request recorded but a zero message
total; unreachable by `analyze_message`, but within the claim's stated
scope of "every analyzer state with non-negative message counts". -/
def cexAnalyzer : AnalyzerState :=
  { CommunicationAnalyzer.initState with help_requests := 1 }

/-- C1: while the hub is started, a send with an explicit recipient appends
the constructed message to that recipient's inbox and leaves every other
inbox unchanged; a send with no recipient appends it to the inbox of every
currently-subscribed agent and leaves non-subscribers' inboxes unchanged. -/
theorem send_delivers_to_recipient_only (σ : HubState) (s r : String)
    (k : MessageType) (c : List (String × String)) (subj : Option String)
    (p : MessagePriority) (tid : Option String) (hs : σ.started = true) :
    ((Hub.send s (some r) k c subj p tid σ).2.inbox r
        = σ.inbox r ++ [Hub.mkMessage σ s (some r) k c subj p tid]
      ∧ ∀ a, a ≠ r →
          (Hub.send s (some r) k c subj p tid σ).2.inbox a = σ.inbox a)
    ∧ ((∀ a, a ∈ σ.subscribers →
          (Hub.send s none k c subj p tid σ).2.inbox a
            = σ.inbox a ++ [Hub.mkMessage σ s none k c subj p tid])
      ∧ ∀ a, a ∉ σ.subscribers →
          (Hub.send s none k c subj p tid σ).2.inbox a = σ.inbox a) := by
  refine ⟨⟨?_, ?_⟩, ?_, ?_⟩
  · simp [Hub.send, hs]
  · intro a ha
    simp [Hub.send, hs, ha]
  · intro a ha
    simp [Hub.send, hs, ha]
  · intro a ha
    simp [Hub.send, hs, ha]

/-- Witness for C1: in a started hub where `S` subscribes, a directed send
from `A` to `B` lands in `B`'s inbox, not in `S`'s; a broadcast from `A`
lands in `S`'s inbox. -/
theorem send_delivers_to_recipient_only_witness :
    ((Hub.send "A" (some "B") .STATUS_UPDATE [("x", "1")] none .NORMAL none
        (Hub.subscribe "S" (Hub.hubStart Hub.initHub)).2).2.inbox "B"
      = (Hub.subscribe "S" (Hub.hubStart Hub.initHub)).2.inbox "B" ++
          [Hub.mkMessage (Hub.subscribe "S" (Hub.hubStart Hub.initHub)).2 "A"
            (some "B") .STATUS_UPDATE [("x", "1")] none .NORMAL none])
    ∧ ((Hub.send "A" (some "B") .STATUS_UPDATE [("x", "1")] none .NORMAL none
        (Hub.subscribe "S" (Hub.hubStart Hub.initHub)).2).2.inbox "S"
      = (Hub.subscribe "S" (Hub.hubStart Hub.initHub)).2.inbox "S")
    ∧ ((Hub.send "A" none .STATUS_UPDATE [("x", "1")] none .NORMAL none
        (Hub.subscribe "S" (Hub.hubStart Hub.initHub)).2).2.inbox "S"
      = (Hub.subscribe "S" (Hub.hubStart Hub.initHub)).2.inbox "S" ++
          [Hub.mkMessage (Hub.subscribe "S" (Hub.hubStart Hub.initHub)).2 "A"
            none .STATUS_UPDATE [("x", "1")] none .NORMAL none]) :=
  ⟨(send_delivers_to_recipient_only _ "A" "B" .STATUS_UPDATE [("x", "1")]
      none .NORMAL none rfl).1.1,
   (send_delivers_to_recipient_only _ "A" "B" .STATUS_UPDATE [("x", "1")]
      none .NORMAL none rfl).1.2 "S" (by decide),
   (send_delivers_to_recipient_only _ "A" "B" .STATUS_UPDATE [("x", "1")]
      none .NORMAL none rfl).2.1 "S" (by decide)⟩

/-- C2: with the hub not started (before `start()` or after `stop()`),
`send`, `broadcast`, `create_thread`, `reply_to_message` and `get_messages`
all fail fast with `InvalidStateError`. -/
theorem stopped_hub_rejects_operations (σ : HubState) (h : σ.started = false)
    (s a title : String) (rcpt : Option String) (k : MessageType)
    (c ctx : List (String × String)) (subj : Option String)
    (p : MessagePriority) (tid : Option String) (parts : Finset String)
    (eid : Option String) (pid : Nat) (limit : Nat) :
    (Hub.send s rcpt k c subj p tid σ).1 = .error .InvalidStateError
    ∧ (Hub.broadcast s k c subj p tid σ).1 = .error .InvalidStateError
    ∧ (Hub.create_thread title parts ctx eid σ).1 = .error .InvalidStateError
    ∧ (Hub.reply_to_message s pid c subj σ).1 = .error .InvalidStateError
    ∧ (Hub.get_messages a limit σ).1 = .error .InvalidStateError := by
  refine ⟨?_, ?_, ?_, ?_, ?_⟩ <;>
    simp [Hub.send, Hub.broadcast, Hub.create_thread, Hub.reply_to_message,
      Hub.get_messages, h]

/-- Witness for C2: calling `send` on the fresh, never-started hub raises
`InvalidStateError`. -/
theorem stopped_hub_rejects_operations_witness :
    (Hub.send "A" (some "B") .STATUS_UPDATE [("x", "1")] none .NORMAL none
      Hub.initHub).1 = .error .InvalidStateError :=
  (stopped_hub_rejects_operations Hub.initHub rfl "A" "B" "T" (some "B")
    .STATUS_UPDATE [("x", "1")] [] none .NORMAL none ∅ none 0 10).1

/-- C3: while started, replying to a known parent message creates exactly
one new message, appended to the log, carrying the parent's thread
identifier and addressed to the parent's original sender; replying to an
unknown parent identifier fails with `NotFoundError` and leaves the hub
unchanged. -/
theorem reply_same_thread_to_parent_sender (σ : HubState)
    (hs : σ.started = true) (s : String) (pid : Nat)
    (c : List (String × String)) (subj : Option String) :
    (∀ parent, Hub.find_message pid σ.log = some parent →
      ∃ m : Message,
        (Hub.reply_to_message s pid c subj σ).1 = .ok m.id
        ∧ (Hub.reply_to_message s pid c subj σ).2.log = σ.log ++ [m]
        ∧ m.thread_id = parent.thread_id
        ∧ m.recipient_id = some parent.sender_id)
    ∧ (Hub.find_message pid σ.log = none →
        Hub.reply_to_message s pid c subj σ = (.error .NotFoundError, σ)) := by
  constructor
  · intro parent hp
    refine ⟨Hub.mkMessage σ s (some parent.sender_id) parent.message_type c
      subj .NORMAL parent.thread_id, ?_, ?_, rfl, rfl⟩
    · simp [Hub.reply_to_message, hs, hp, Hub.send, Hub.mkMessage]
    · simp [Hub.reply_to_message, hs, hp, Hub.send]
  · intro hp
    simp [Hub.reply_to_message, hs, hp]

/-- Witness for C3: in `sampleReplyState`, replying to message 0 creates a
message in thread `T` addressed back to `A`, and replying to the unknown
identifier 5 fails with `NotFoundError`. -/
theorem reply_same_thread_to_parent_sender_witness :
    (∃ m : Message,
      (Hub.reply_to_message "B" 0 [("ok", "yes")] none sampleReplyState).1
        = .ok m.id
      ∧ (Hub.reply_to_message "B" 0 [("ok", "yes")] none
          sampleReplyState).2.log = sampleReplyState.log ++ [m]
      ∧ m.thread_id = sampleParent.thread_id
      ∧ m.recipient_id = some sampleParent.sender_id)
    ∧ Hub.reply_to_message "B" 5 [("ok", "yes")] none sampleReplyState
        = (.error .NotFoundError, sampleReplyState) :=
  ⟨(reply_same_thread_to_parent_sender sampleReplyState rfl "B" 0
      [("ok", "yes")] none).1 sampleParent (by decide),
   (reply_same_thread_to_parent_sender sampleReplyState rfl "B" 5
      [("ok", "yes")] none).2 (by decide)⟩

/-- Every element of a list of naturals is bounded by the fold of `max`. -/
theorem mem_le_foldr_max {l : List Nat} {x : Nat} (h : x ∈ l) :
    x ≤ l.foldr max 0 := by
  induction l with
  | nil => cases h
  | cons y ys ih =>
      rcases List.mem_cons.mp h with rfl | h
      · exact le_max_left _ _
      · exact le_trans (ih h) (le_max_right _ _)

/-- The automatically generated thread identifier is longer than, hence
different from, every identifier in use. -/
theorem freshAuto_not_mem (used : List String) : Hub.freshAuto used ∉ used := by
  intro hmem
  have hlen : (Hub.freshAuto used).length ≤ (used.map String.length).foldr max 0 :=
    mem_le_foldr_max (List.mem_map_of_mem String.length hmem)
  have : (Hub.freshAuto used).length
      = (used.map String.length).foldr max 0 + 1 := by
    simp [Hub.freshAuto]
  omega

/-- A key that is absent from an association list's keys looks up to
`none`. -/
theorem lookupThread_eq_none {tid : String} {l : List (String × HubThread)}
    (h : tid ∉ l.map Prod.fst) : Hub.lookupThread tid l = none := by
  induction l with
  | nil => rfl
  | cons p rest ih =>
      simp only [List.map_cons, List.mem_cons] at h
      push_neg at h
      simp [Hub.lookupThread, h.1, ih h.2]

/-- Appending a fresh entry does not disturb an existing lookup. -/
theorem lookupThread_append {tid : String} {l : List (String × HubThread)}
    {th : HubThread} (h : Hub.lookupThread tid l = some th)
    (p : String × HubThread) :
    Hub.lookupThread tid (l ++ [p]) = some th := by
  induction l with
  | nil => simp [Hub.lookupThread] at h
  | cons q rest ih =>
      by_cases hq : tid = q.1
      · simpa [Hub.lookupThread, hq] using h
      · simp only [Hub.lookupThread, hq, if_false] at h ⊢
        exact ih h

/-- Appending an entry under an unused key makes that key look it up. -/
theorem lookupThread_append_self {tid : String} {l : List (String × HubThread)}
    (h : Hub.lookupThread tid l = none) (th : HubThread) :
    Hub.lookupThread tid (l ++ [(tid, th)]) = some th := by
  induction l with
  | nil => simp [Hub.lookupThread]
  | cons q rest ih =>
      by_cases hq : tid = q.1
      · simp [Hub.lookupThread, hq] at h
      · simp only [Hub.lookupThread, hq, if_false] at h ⊢
        exact ih h

/-- Updating one thread's participant set rewrites exactly that thread's
lookup result. -/
theorem lookupThread_addParticipantTable (tid tid0 a : String)
    (l : List (String × HubThread)) :
    Hub.lookupThread tid (Hub.addParticipantTable tid0 a l)
      = (Hub.lookupThread tid l).map fun th =>
          if tid = tid0 then
            { th with participants := insert a th.participants }
          else th := by
  induction l with
  | nil => rfl
  | cons q rest ih =>
      obtain ⟨k, th⟩ := q
      by_cases hk : k = tid0
      · subst hk
        by_cases ht : tid = k
        · simp [Hub.addParticipantTable, Hub.lookupThread, ht]
        · simp [Hub.addParticipantTable, Hub.lookupThread, ht]
      · by_cases ht : tid = k
        · simp [Hub.addParticipantTable, Hub.lookupThread, hk, ht]
        · simp only [Hub.addParticipantTable, hk, if_false,
            Hub.lookupThread, ht, ih]

/-- One hub operation can only grow a thread's participant set, never
remove the thread or drop a participant. -/
theorem participants_mono_applyOp (op : HubOp) (σ : HubState) (tid : String)
    (th : HubThread) (h : Hub.lookupThread tid σ.threads = some th) :
    ∃ th', Hub.lookupThread tid (Hub.applyOp op σ).2.threads = some th'
      ∧ th.participants ⊆ th'.participants := by
  cases op with
  | start => exact ⟨th, h, Finset.Subset.refl _⟩
  | stop => exact ⟨th, h, Finset.Subset.refl _⟩
  | register_agent a caps =>
      refine ⟨th, ?_, Finset.Subset.refl _⟩
      have : (Hub.applyOp (.register_agent a caps) σ).2.threads = σ.threads := by
        simp only [Hub.applyOp, Hub.register_agent]
        split <;> rfl
      rw [this]; exact h
  | subscribe a =>
      refine ⟨th, ?_, Finset.Subset.refl _⟩
      have : (Hub.applyOp (.subscribe a) σ).2.threads = σ.threads := by
        simp only [Hub.applyOp, Hub.subscribe]
        split <;> rfl
      rw [this]; exact h
  | unsubscribe a =>
      refine ⟨th, ?_, Finset.Subset.refl _⟩
      have : (Hub.applyOp (.unsubscribe a) σ).2.threads = σ.threads := by
        simp only [Hub.applyOp, Hub.unsubscribe]
        split <;> rfl
      rw [this]; exact h
  | send s rcpt k c subj p tid2 =>
      refine ⟨th, ?_, Finset.Subset.refl _⟩
      have : (Hub.applyOp (.send s rcpt k c subj p tid2) σ).2.threads
          = σ.threads := by
        simp only [Hub.applyOp, Hub.send]
        split <;> rfl
      rw [this]; exact h
  | broadcast s k c subj p tid2 =>
      refine ⟨th, ?_, Finset.Subset.refl _⟩
      have : (Hub.applyOp (.broadcast s k c subj p tid2) σ).2.threads
          = σ.threads := by
        simp only [Hub.applyOp, Hub.broadcast, Hub.send]
        split <;> rfl
      rw [this]; exact h
  | get_messages a limit =>
      refine ⟨th, ?_, Finset.Subset.refl _⟩
      have : (Hub.applyOp (.get_messages a limit) σ).2.threads = σ.threads := by
        simp only [Hub.applyOp, Hub.get_messages]
        split <;> rfl
      rw [this]; exact h
  | reply_to_message s pid c subj =>
      refine ⟨th, ?_, Finset.Subset.refl _⟩
      have : (Hub.applyOp (.reply_to_message s pid c subj) σ).2.threads
          = σ.threads := by
        simp only [Hub.applyOp, Hub.reply_to_message]
        split
        · split
          · rfl
          · simp only [Hub.send]
            split <;> rfl
        · rfl
      rw [this]; exact h
  | create_thread title parts ctx eid =>
      refine ⟨th, ?_, Finset.Subset.refl _⟩
      by_cases hs : σ.started
      · cases eid with
        | none =>
            simp only [Hub.applyOp, Hub.create_thread, hs, if_true]
            exact lookupThread_append h _
        | some e =>
            cases he : Hub.lookupThread e σ.threads with
            | none =>
                simp only [Hub.applyOp, Hub.create_thread, hs, if_true, he]
                exact lookupThread_append h _
            | some th0 =>
                simp only [Hub.applyOp, Hub.create_thread, hs, if_true, he]
                exact h
      · simp only [Hub.applyOp, Hub.create_thread, hs, if_false]
        exact h
  | add_thread_participant tid0 a =>
      simp only [Hub.applyOp, Hub.add_thread_participant]
      by_cases hs : σ.started
      · simp only [hs, if_true]
        cases he : Hub.lookupThread tid0 σ.threads with
        | none => exact ⟨th, h, Finset.Subset.refl _⟩
        | some th0 =>
            refine ⟨if tid = tid0 then
              { th with participants := insert a th.participants }
              else th, ?_, ?_⟩
            · rw [lookupThread_addParticipantTable, h]
              rfl
            · split
              · exact Finset.subset_insert _ _
              · exact Finset.Subset.refl _
      · simp only [hs, if_false]; exact ⟨th, h, Finset.Subset.refl _⟩

/-- Over any call sequence, a thread's participant set only grows. -/
theorem participants_mono_run (ops : List HubOp) (σ : HubState) (tid : String)
    (th : HubThread) (h : Hub.lookupThread tid σ.threads = some th) :
    ∃ th', Hub.lookupThread tid (Hub.run ops σ).threads = some th'
      ∧ th.participants ⊆ th'.participants := by
  induction ops generalizing σ th with
  | nil => exact ⟨th, h, Finset.Subset.refl _⟩
  | cons op rest ih =>
      obtain ⟨th1, h1, hsub1⟩ := participants_mono_applyOp op σ tid th h
      obtain ⟨th2, h2, hsub2⟩ := ih _ _ h1
      exact ⟨th2, h2, Finset.Subset.trans hsub1 hsub2⟩

/-- C4: a thread successfully created by `create_thread` with participant
set `P` still exists after any subsequent call sequence, and its
participant set is a superset of `P`: participant sets are monotonically
non-decreasing and no operation removes a participant. -/
theorem create_thread_participants_grow (σ : HubState) (title : String)
    (P : Finset String) (ctx : List (String × String)) (eid : Option String)
    (ops : List HubOp) (tid : String)
    (h1 : (Hub.create_thread title P ctx eid σ).1 = .ok tid) :
    ∃ th, Hub.lookupThread tid
        (Hub.run ops (Hub.create_thread title P ctx eid σ).2).threads = some th
      ∧ P ⊆ th.participants := by
  by_cases hs : σ.started
  · cases eid with
    | some e =>
        cases he : Hub.lookupThread e σ.threads with
        | some th0 =>
            exfalso
            simp [Hub.create_thread, hs, he] at h1
        | none =>
            have htid : e = tid := by
              simpa [Hub.create_thread, hs, he] using h1
            subst htid
            have h2 : (Hub.create_thread title P ctx (some e) σ).2.threads
                = σ.threads ++ [(e, ⟨e, title, P, ctx, σ.nextMsgId⟩)] := by
              simp [Hub.create_thread, hs, he]
            exact participants_mono_run ops _ e ⟨e, title, P, ctx, σ.nextMsgId⟩
              (by rw [h2]; exact lookupThread_append_self he _)
    | none =>
        have htid : Hub.freshAuto (σ.threads.map Prod.fst) = tid := by
          simpa [Hub.create_thread, hs] using h1
        have hnone : Hub.lookupThread tid σ.threads = none := by
          apply lookupThread_eq_none
          rw [← htid]
          exact freshAuto_not_mem _
        have h2 : (Hub.create_thread title P ctx none σ).2.threads
            = σ.threads ++ [(tid, ⟨tid, title, P, ctx, σ.nextMsgId⟩)] := by
          rw [← htid]
          simp [Hub.create_thread, hs]
        exact participants_mono_run ops _ tid ⟨tid, title, P, ctx, σ.nextMsgId⟩
          (by rw [h2]; exact lookupThread_append_self hnone _)
  · exfalso
    simp [Hub.create_thread, hs] at h1

/-- Witness for C4: creating a thread with participants `{A}` on a started
hub and then adding participant `C` leaves a thread whose participant set
still contains `A`. -/
theorem create_thread_participants_grow_witness :
    ∃ th, Hub.lookupThread "t"
        (Hub.run [.add_thread_participant "t" "C"]
          (Hub.create_thread "T" {"A"} [] none
            (Hub.hubStart Hub.initHub)).2).threads = some th
      ∧ ({"A"} : Finset String) ⊆ th.participants :=
  create_thread_participants_grow (Hub.hubStart Hub.initHub) "T" {"A"} [] none
    [.add_thread_participant "t" "C"] "t" rfl

/-- Running a sequence of send/broadcast calls adds exactly the number of
successful ones to the since-start message counter. -/
theorem totalSinceStart_run_sends (ops : List HubOp) (σ : HubState)
    (hall : ∀ op ∈ ops, Hub.isSendOp op = true) :
    (Hub.run ops σ).totalSinceStart
      = σ.totalSinceStart + Hub.okSends ops σ := by
  induction ops generalizing σ with
  | nil => simp [Hub.run, Hub.okSends]
  | cons op rest ih =>
      have hop : Hub.isSendOp op = true := hall op (List.mem_cons_self _ _)
      have hrest : ∀ o ∈ rest, Hub.isSendOp o = true := fun o ho =>
        hall o (List.mem_cons_of_mem _ ho)
      have hstep : (Hub.applyOp op σ).2.totalSinceStart
          = σ.totalSinceStart +
            (if Hub.isSendOp op ∧ Hub.resOk (Hub.applyOp op σ).1 then 1
             else 0) := by
        cases op with
        | send s rcpt k c subj p tid =>
            by_cases hs : σ.started
            · simp [Hub.applyOp, Hub.send, hs, Hub.isSendOp, Hub.resOk,
                Except.map]
            · simp [Hub.applyOp, Hub.send, hs, Hub.isSendOp, Hub.resOk,
                Except.map]
        | broadcast s k c subj p tid =>
            by_cases hs : σ.started
            · simp [Hub.applyOp, Hub.broadcast, Hub.send, hs, Hub.isSendOp,
                Hub.resOk, Except.map]
            · simp [Hub.applyOp, Hub.broadcast, Hub.send, hs, Hub.isSendOp,
                Hub.resOk, Except.map]
        | start => simp [Hub.isSendOp] at hop
        | stop => simp [Hub.isSendOp] at hop
        | register_agent a caps => simp [Hub.isSendOp] at hop
        | subscribe a => simp [Hub.isSendOp] at hop
        | unsubscribe a => simp [Hub.isSendOp] at hop
        | create_thread t parts ctx eid => simp [Hub.isSendOp] at hop
        | add_thread_participant t a => simp [Hub.isSendOp] at hop
        | reply_to_message s pid c subj => simp [Hub.isSendOp] at hop
        | get_messages a limit => simp [Hub.isSendOp] at hop
      show (Hub.run rest (Hub.applyOp op σ).2).totalSinceStart = _
      rw [ih _ hrest, hstep]
      show _ = σ.totalSinceStart +
        ((if Hub.isSendOp op ∧ Hub.resOk (Hub.applyOp op σ).1 then 1 else 0) +
          Hub.okSends rest (Hub.applyOp op σ).2)
      omega

/-- C5: after `start()`, running any sequence of send/broadcast calls
leaves `get_communication_stats().total` equal to the number of those calls
that succeeded. -/
theorem stats_total_counts_sends (ops : List HubOp) (σ : HubState)
    (hall : ∀ op ∈ ops, Hub.isSendOp op = true) :
    (Hub.get_communication_stats (Hub.run ops (Hub.hubStart σ))).total
      = Hub.okSends ops (Hub.hubStart σ) := by
  have h := totalSinceStart_run_sends ops (Hub.hubStart σ) hall
  simpa [Hub.get_communication_stats, Hub.hubStart] using h

/-- Witness for C5: after `start()`, one send and one broadcast leave the
statistics total equal to the successful-call count of that sequence. -/
theorem stats_total_counts_sends_witness :
    (Hub.get_communication_stats (Hub.run sendThenBroadcast
        (Hub.hubStart Hub.initHub))).total
      = Hub.okSends sendThenBroadcast (Hub.hubStart Hub.initHub) :=
  stats_total_counts_sends sendThenBroadcast Hub.initHub (by decide)

/-- Appending a message with the next free identifier keeps an inbox
strictly increasing and bounded by the incremented counter. -/
theorem ordered_extend {l : List Message} {n : Nat}
    (hp : l.Pairwise fun m1 m2 => m1.id < m2.id)
    (hb : ∀ m ∈ l, m.id < n) {m : Message} (hm : m.id = n) :
    ((l ++ [m]).Pairwise fun m1 m2 => m1.id < m2.id)
    ∧ ∀ x ∈ l ++ [m], x.id < n + 1 := by
  constructor
  · rw [List.pairwise_append]
    refine ⟨hp, List.pairwise_singleton _ _, ?_⟩
    intro x hx y hy
    rw [List.mem_singleton] at hy
    subst hy
    rw [hm]
    exact hb x hx
  · intro x hx
    rcases List.mem_append.mp hx with hx | hx
    · exact Nat.lt_succ_of_lt (hb x hx)
    · rw [List.mem_singleton] at hx
      subst hx
      omega

/-- A state with the same inboxes and counter inherits the ordering
invariant. -/
theorem inboxesOrdered_of_eq {σ σ2 : HubState} (h : InboxesOrdered σ)
    (hi : σ2.inbox = σ.inbox) (hn : σ2.nextMsgId = σ.nextMsgId) :
    InboxesOrdered σ2 := by
  intro a
  rw [hi, hn]
  exact h a

/-- A send preserves the inbox ordering invariant. -/
theorem inboxesOrdered_send (s : String) (rcpt : Option String)
    (k : MessageType) (c : List (String × String)) (subj : Option String)
    (p : MessagePriority) (tid : Option String) (σ : HubState)
    (h : InboxesOrdered σ) :
    InboxesOrdered (Hub.send s rcpt k c subj p tid σ).2 := by
  by_cases hs : σ.started
  · have hnext : (Hub.send s rcpt k c subj p tid σ).2.nextMsgId
        = σ.nextMsgId + 1 := by
      cases rcpt <;> simp [Hub.send, hs]
    have hinb : ∀ a, (Hub.send s rcpt k c subj p tid σ).2.inbox a = σ.inbox a
        ∨ (Hub.send s rcpt k c subj p tid σ).2.inbox a
            = σ.inbox a ++ [Hub.mkMessage σ s rcpt k c subj p tid] := by
      intro a
      cases rcpt with
      | some r =>
          by_cases har : a = r
          · right; simp [Hub.send, hs, har]
          · left; simp [Hub.send, hs, har]
      | none =>
          by_cases ha : a ∈ σ.subscribers
          · right; simp [Hub.send, hs, ha]
          · left; simp [Hub.send, hs, ha]
    intro a
    obtain ⟨hp, hb⟩ := h a
    rw [hnext]
    rcases hinb a with heq | heq <;> rw [heq]
    · exact ⟨hp, fun x hx => Nat.lt_succ_of_lt (hb x hx)⟩
    · exact ordered_extend hp hb rfl
  · have heq : (Hub.send s rcpt k c subj p tid σ).2 = σ := by
      simp [Hub.send, hs]
    rw [heq]
    exact h

/-- Every hub operation preserves the inbox ordering invariant. -/
theorem inboxesOrdered_applyOp (op : HubOp) (σ : HubState)
    (h : InboxesOrdered σ) : InboxesOrdered (Hub.applyOp op σ).2 := by
  cases op with
  | start => exact fun a => h a
  | stop => exact fun a => h a
  | send s rcpt k c subj p tid => exact inboxesOrdered_send s rcpt k c subj p tid σ h
  | broadcast s k c subj p tid => exact inboxesOrdered_send s none k c subj p tid σ h
  | register_agent a caps =>
      refine inboxesOrdered_of_eq h ?_ ?_ <;>
        (simp only [Hub.applyOp, Hub.register_agent]; split <;> rfl)
  | subscribe a =>
      refine inboxesOrdered_of_eq h ?_ ?_ <;>
        (simp only [Hub.applyOp, Hub.subscribe]; split <;> rfl)
  | unsubscribe a =>
      refine inboxesOrdered_of_eq h ?_ ?_ <;>
        (simp only [Hub.applyOp, Hub.unsubscribe]; split <;> rfl)
  | get_messages a limit =>
      refine inboxesOrdered_of_eq h ?_ ?_ <;>
        (simp only [Hub.applyOp, Hub.get_messages]; split <;> rfl)
  | create_thread title parts ctx eid =>
      by_cases hs : σ.started
      · cases eid with
        | none =>
            refine inboxesOrdered_of_eq h ?_ ?_ <;>
              simp [Hub.applyOp, Hub.create_thread, hs]
        | some e =>
            cases he : Hub.lookupThread e σ.threads with
            | none =>
                refine inboxesOrdered_of_eq h ?_ ?_ <;>
                  simp [Hub.applyOp, Hub.create_thread, hs, he]
            | some th0 =>
                refine inboxesOrdered_of_eq h ?_ ?_ <;>
                  simp [Hub.applyOp, Hub.create_thread, hs, he]
      · refine inboxesOrdered_of_eq h ?_ ?_ <;>
          simp [Hub.applyOp, Hub.create_thread, hs]
  | add_thread_participant tid a =>
      by_cases hs : σ.started
      · cases he : Hub.lookupThread tid σ.threads with
        | none =>
            refine inboxesOrdered_of_eq h ?_ ?_ <;>
              simp [Hub.applyOp, Hub.add_thread_participant, hs, he]
        | some th0 =>
            refine inboxesOrdered_of_eq h ?_ ?_ <;>
              simp [Hub.applyOp, Hub.add_thread_participant, hs, he]
      · refine inboxesOrdered_of_eq h ?_ ?_ <;>
          simp [Hub.applyOp, Hub.add_thread_participant, hs]
  | reply_to_message s pid c subj =>
      by_cases hs : σ.started
      · cases hf : Hub.find_message pid σ.log with
        | none =>
            refine inboxesOrdered_of_eq h ?_ ?_ <;>
              simp [Hub.applyOp, Hub.reply_to_message, hs, hf]
        | some parent =>
            have heq : (Hub.applyOp (.reply_to_message s pid c subj) σ).2
                = (Hub.send s (some parent.sender_id) parent.message_type c
                    subj .NORMAL parent.thread_id σ).2 := by
              simp [Hub.applyOp, Hub.reply_to_message, hs, hf]
            rw [heq]
            exact inboxesOrdered_send _ _ _ _ _ _ _ σ h
      · refine inboxesOrdered_of_eq h ?_ ?_ <;>
          simp [Hub.applyOp, Hub.reply_to_message, hs]

/-- Any call sequence preserves the inbox ordering invariant. -/
theorem inboxesOrdered_run (ops : List HubOp) (σ : HubState)
    (h : InboxesOrdered σ) : InboxesOrdered (Hub.run ops σ) := by
  induction ops generalizing σ with
  | nil => exact h
  | cons op rest ih => exact ih _ (inboxesOrdered_applyOp op σ h)

/-- The fresh hub satisfies the inbox ordering invariant. -/
theorem inboxesOrdered_initHub : InboxesOrdered Hub.initHub := by
  intro a
  exact ⟨List.Pairwise.nil, by intro m hm; cases hm⟩

/-- C6: on any reachable started hub, `get_messages` returns the oldest
`limit` messages of the agent's inbox in identifier (send) order, at most
`limit` of them, without mutating the hub, so an immediately repeated call
returns the same sequence. -/
theorem get_messages_peek_oldest (ops : List HubOp) (a : String) (limit : Nat)
    (hs : (Hub.run ops Hub.initHub).started = true) :
    Hub.get_messages a limit (Hub.run ops Hub.initHub)
      = (.ok (((Hub.run ops Hub.initHub).inbox a).take limit),
          Hub.run ops Hub.initHub)
    ∧ (((Hub.run ops Hub.initHub).inbox a).take limit).length ≤ limit
    ∧ (((Hub.run ops Hub.initHub).inbox a).take limit).Pairwise
        (fun m1 m2 => m1.id < m2.id)
    ∧ (Hub.get_messages a limit
          (Hub.get_messages a limit (Hub.run ops Hub.initHub)).2).1
        = (Hub.get_messages a limit (Hub.run ops Hub.initHub)).1 := by
  refine ⟨?_, ?_, ?_, ?_⟩
  · simp [Hub.get_messages, hs]
  · exact List.length_take_le _ _
  · exact List.Pairwise.sublist (List.take_sublist _ _)
      ((inboxesOrdered_run ops Hub.initHub inboxesOrdered_initHub) a).1
  · simp [Hub.get_messages, hs]

/-- Witness for C6: after one send to `B`, reading `B`'s inbox twice with
limit 10 yields at most 10 messages and the same result both times. -/
theorem get_messages_peek_oldest_witness :
    (((Hub.run oneSendToB Hub.initHub).inbox "B").take 10).length ≤ 10
    ∧ (Hub.get_messages "B" 10
          (Hub.get_messages "B" 10 (Hub.run oneSendToB Hub.initHub)).2).1
        = (Hub.get_messages "B" 10 (Hub.run oneSendToB Hub.initHub)).1 :=
  ⟨(get_messages_peek_oldest oneSendToB "B" 10 rfl).2.1,
   (get_messages_peek_oldest oneSendToB "B" 10 rfl).2.2.2⟩

/-- C7: in any reachable hub state, an agent's inbox lists messages of a
single sender in send order: message identifiers are allocated in send
order, and an inbox entry with a smaller identifier from the same sender
sits at an earlier position. -/
theorem per_sender_delivery_order (ops : List HubOp) (r : String) (i j : Nat)
    (hi : i < ((Hub.run ops Hub.initHub).inbox r).length)
    (hj : j < ((Hub.run ops Hub.initHub).inbox r).length)
    (hsender : (((Hub.run ops Hub.initHub).inbox r).get ⟨i, hi⟩).sender_id
        = (((Hub.run ops Hub.initHub).inbox r).get ⟨j, hj⟩).sender_id)
    (horder : (((Hub.run ops Hub.initHub).inbox r).get ⟨i, hi⟩).id
        < (((Hub.run ops Hub.initHub).inbox r).get ⟨j, hj⟩).id) :
    i < j := by
  have hp := ((inboxesOrdered_run ops Hub.initHub inboxesOrdered_initHub) r).1
  rw [List.pairwise_iff_get] at hp
  rcases Nat.lt_trichotomy i j with h | h | h
  · exact h
  · exfalso
    subst h
    exact absurd horder (lt_irrefl _)
  · exfalso
    have hji := hp ⟨j, hj⟩ ⟨i, hi⟩ (by simpa using h)
    exact Nat.lt_asymm hji horder

/-- Witness for C7: after two sends from `A` to `B`, the first-sent message
(smaller identifier) sits at the earlier inbox position. -/
theorem per_sender_delivery_order_witness : (0 : Nat) < 1 :=
  per_sender_delivery_order twoSendsToB "B" 0 1 (by decide) (by decide)
    (by decide) (by decide)

/-- Bumping a counter raises the association list's count sum by one. -/
theorem sumCounts_bumpCount (key : String) (l : List (String × Nat)) :
    CommunicationAnalyzer.sumCounts (Hub.bumpCount key l)
      = CommunicationAnalyzer.sumCounts l + 1 := by
  induction l with
  | nil => simp [Hub.bumpCount, CommunicationAnalyzer.sumCounts]
  | cons p rest ih =>
      by_cases hk : key = p.1
      · obtain ⟨k, n⟩ := p
        simp only at hk
        simp [Hub.bumpCount, hk, CommunicationAnalyzer.sumCounts]
        omega
      · obtain ⟨k, n⟩ := p
        simp only at hk
        simp only [Hub.bumpCount, hk, if_false,
          CommunicationAnalyzer.sumCounts, List.map_cons, List.sum_cons] at ih ⊢
        omega

/-- `analyze_message` keeps the analyzer's counters mutually consistent. -/
theorem analyzerConsistent_step (σ : AnalyzerState) (m : Message)
    (h : AnalyzerConsistent σ) :
    AnalyzerConsistent (CommunicationAnalyzer.analyze_message σ m) := by
  obtain ⟨h1, h2, h3, h4⟩ := h
  refine ⟨?_, ?_, ?_, ?_⟩
  · simp [CommunicationAnalyzer.analyze_message, h1]
  · simp [CommunicationAnalyzer.analyze_message, sumCounts_bumpCount, h2]
  · simp [CommunicationAnalyzer.analyze_message, sumCounts_bumpCount, h3]
  · obtain ⟨id, sender, rcpt, mt, prio, c, subj, tid, ts⟩ := m
    cases mt <;>
      simp [CommunicationAnalyzer.analyze_message] <;> omega

/-- Folding `analyze_message` over any message list preserves counter
consistency. -/
theorem analyzerConsistent_foldl (msgs : List Message) (σ : AnalyzerState)
    (h : AnalyzerConsistent σ) :
    AnalyzerConsistent
      (msgs.foldl CommunicationAnalyzer.analyze_message σ) := by
  induction msgs generalizing σ with
  | nil => exact h
  | cons m rest ih => exact ih _ (analyzerConsistent_step σ m h)

/-- C8: from a freshly constructed analyzer, after any sequence of
`analyze_message` calls the counters agree: the total equals the log
length, the per-type count sum and the per-agent count sum, and the three
kind-specific counters together never exceed the total. -/
theorem analyzer_counters_consistent (msgs : List Message) :
    (msgs.foldl CommunicationAnalyzer.analyze_message
        CommunicationAnalyzer.initState).total_messages
      = (msgs.foldl CommunicationAnalyzer.analyze_message
          CommunicationAnalyzer.initState).message_log.length
    ∧ (msgs.foldl CommunicationAnalyzer.analyze_message
        CommunicationAnalyzer.initState).total_messages
      = CommunicationAnalyzer.sumCounts
          (msgs.foldl CommunicationAnalyzer.analyze_message
            CommunicationAnalyzer.initState).by_type
    ∧ (msgs.foldl CommunicationAnalyzer.analyze_message
        CommunicationAnalyzer.initState).total_messages
      = CommunicationAnalyzer.sumCounts
          (msgs.foldl CommunicationAnalyzer.analyze_message
            CommunicationAnalyzer.initState).by_agent
    ∧ (msgs.foldl CommunicationAnalyzer.analyze_message
          CommunicationAnalyzer.initState).collaboration_requests
        + (msgs.foldl CommunicationAnalyzer.analyze_message
            CommunicationAnalyzer.initState).knowledge_shares
        + (msgs.foldl CommunicationAnalyzer.analyze_message
            CommunicationAnalyzer.initState).help_requests
      ≤ (msgs.foldl CommunicationAnalyzer.analyze_message
          CommunicationAnalyzer.initState).total_messages :=
  analyzerConsistent_foldl msgs CommunicationAnalyzer.initState
    ⟨rfl, rfl, rfl, le_refl 0⟩

/-- The collaboration score is non-negative. -/
theorem collab_score_nonneg (σ : AnalyzerState) :
    0 ≤ CommunicationAnalyzer.calculate_collaboration_score σ := by
  simp only [CommunicationAnalyzer.calculate_collaboration_score]
  split_ifs
  · norm_num
  · exact le_min (by norm_num) (by positivity)
  · exact le_min (by norm_num) (by positivity)

/-- The collaboration score is at most 10. -/
theorem collab_score_le (σ : AnalyzerState) :
    CommunicationAnalyzer.calculate_collaboration_score σ ≤ 10 := by
  simp only [CommunicationAnalyzer.calculate_collaboration_score]
  split_ifs <;> norm_num

/-- The knowledge score is non-negative. -/
theorem knowledge_score_nonneg (σ : AnalyzerState) :
    0 ≤ CommunicationAnalyzer.calculate_knowledge_score σ := by
  simp only [CommunicationAnalyzer.calculate_knowledge_score]
  split_ifs
  · norm_num
  · exact le_min (by norm_num) (by positivity)

/-- The knowledge score is at most 10. -/
theorem knowledge_score_le (σ : AnalyzerState) :
    CommunicationAnalyzer.calculate_knowledge_score σ ≤ 10 := by
  simp only [CommunicationAnalyzer.calculate_knowledge_score]
  split_ifs <;> norm_num

/-- The effectiveness score is non-negative. -/
theorem effectiveness_score_nonneg (σ : AnalyzerState) :
    0 ≤ CommunicationAnalyzer.calculate_effectiveness_score σ := by
  simp only [CommunicationAnalyzer.calculate_effectiveness_score]
  refine le_min (by norm_num) (div_nonneg ?_ (by norm_num))
  have h1 := collab_score_nonneg σ
  have h2 := knowledge_score_nonneg σ
  have h3 : (0 : ℚ) ≤ min 2 ((σ.help_requests : ℚ)
      / (((max 1 σ.total_messages : Nat)) : ℚ) * 10) :=
    le_min (by norm_num) (by positivity)
  linarith

/-- The effectiveness score is at most 10. -/
theorem effectiveness_score_le (σ : AnalyzerState) :
    CommunicationAnalyzer.calculate_effectiveness_score σ ≤ 10 := by
  simp only [CommunicationAnalyzer.calculate_effectiveness_score]
  exact min_le_left _ _

/-- The compliance score is non-negative. -/
theorem compliance_score_nonneg (σ : AnalyzerState) :
    0 ≤ CommunicationAnalyzer.calculate_compliance_score σ := by
  simp only [CommunicationAnalyzer.calculate_compliance_score]
  refine le_min (by norm_num) ?_
  have h1 : (0 : ℚ) ≤
      (if 0 < σ.total_messages then (3 : ℚ) else 0) +
        (if 0 < σ.collaboration_requests then (2 : ℚ) else 0) +
        (if 0 < σ.knowledge_shares then (2 : ℚ) else 0) +
        (if 0 < σ.help_requests then (1 : ℚ) else 0) := by
    split_ifs <;> norm_num
  have h2 := effectiveness_score_nonneg σ
  linarith

/-- The compliance score is at most 10. -/
theorem compliance_score_le (σ : AnalyzerState) :
    CommunicationAnalyzer.calculate_compliance_score σ ≤ 10 := by
  simp only [CommunicationAnalyzer.calculate_compliance_score]
  exact min_le_left _ _

/-- With no messages the collaboration score is zero. -/
theorem collab_score_zero (σ : AnalyzerState) (ht : σ.total_messages = 0) :
    CommunicationAnalyzer.calculate_collaboration_score σ = 0 := by
  simp [CommunicationAnalyzer.calculate_collaboration_score, ht]

/-- With no messages the knowledge score is zero. -/
theorem knowledge_score_zero (σ : AnalyzerState) (ht : σ.total_messages = 0) :
    CommunicationAnalyzer.calculate_knowledge_score σ = 0 := by
  simp [CommunicationAnalyzer.calculate_knowledge_score, ht]

/-- With no messages and no recorded help requests the effectiveness score
is zero. -/
theorem effectiveness_score_zero (σ : AnalyzerState)
    (ht : σ.total_messages = 0) (hp : σ.help_requests = 0) :
    CommunicationAnalyzer.calculate_effectiveness_score σ = 0 := by
  simp only [CommunicationAnalyzer.calculate_effectiveness_score,
    collab_score_zero σ ht, knowledge_score_zero σ ht, hp]
  norm_num [min_def]

/-- With all counters zero the compliance score is zero. -/
theorem compliance_score_zero (σ : AnalyzerState)
    (ht : σ.total_messages = 0) (hc : σ.collaboration_requests = 0)
    (hk : σ.knowledge_shares = 0) (hp : σ.help_requests = 0) :
    CommunicationAnalyzer.calculate_compliance_score σ = 0 := by
  simp only [CommunicationAnalyzer.calculate_compliance_score,
    effectiveness_score_zero σ ht hp, ht, hc, hk, hp]
  norm_num [min_def]

/-- Counterexample for C9 as stated: `cexAnalyzer` has non-negative counts
and zero `total_messages`, yet `_calculate_effectiveness_score` returns 1
(the help-request bonus survives the `max(1, total_messages)` guard), not
0.0. -/
theorem effectiveness_score_nonzero_counterexample :
    cexAnalyzer.total_messages = 0
    ∧ CommunicationAnalyzer.calculate_effectiveness_score cexAnalyzer = 1
    ∧ CommunicationAnalyzer.calculate_effectiveness_score cexAnalyzer ≠ 0 := by
  have heval : CommunicationAnalyzer.calculate_effectiveness_score cexAnalyzer
      = 1 := by
    have h1 : CommunicationAnalyzer.calculate_collaboration_score cexAnalyzer
        = 0 := collab_score_zero _ rfl
    have h2 : CommunicationAnalyzer.calculate_knowledge_score cexAnalyzer
        = 0 := knowledge_score_zero _ rfl
    simp only [CommunicationAnalyzer.calculate_effectiveness_score, h1, h2]
    norm_num [cexAnalyzer, CommunicationAnalyzer.initState, min_def]
  exact ⟨rfl, heval, by rw [heval]; norm_num⟩

/-- C9 (amended): each of the four scores lies in [0, 10] for every
analyzer state; and on states whose kind-specific counters do not exceed
the total (true of every state the analyzer can reach), all four scores are
exactly 0 when `total_messages` is 0. -/
theorem scores_in_range_and_zero (σ : AnalyzerState) :
    (0 ≤ CommunicationAnalyzer.calculate_collaboration_score σ
      ∧ CommunicationAnalyzer.calculate_collaboration_score σ ≤ 10)
    ∧ (0 ≤ CommunicationAnalyzer.calculate_knowledge_score σ
      ∧ CommunicationAnalyzer.calculate_knowledge_score σ ≤ 10)
    ∧ (0 ≤ CommunicationAnalyzer.calculate_effectiveness_score σ
      ∧ CommunicationAnalyzer.calculate_effectiveness_score σ ≤ 10)
    ∧ (0 ≤ CommunicationAnalyzer.calculate_compliance_score σ
      ∧ CommunicationAnalyzer.calculate_compliance_score σ ≤ 10)
    ∧ (σ.collaboration_requests + σ.knowledge_shares + σ.help_requests
          ≤ σ.total_messages →
        σ.total_messages = 0 →
          CommunicationAnalyzer.calculate_collaboration_score σ = 0
          ∧ CommunicationAnalyzer.calculate_knowledge_score σ = 0
          ∧ CommunicationAnalyzer.calculate_effectiveness_score σ = 0
          ∧ CommunicationAnalyzer.calculate_compliance_score σ = 0) := by
  refine ⟨⟨collab_score_nonneg σ, collab_score_le σ⟩,
    ⟨knowledge_score_nonneg σ, knowledge_score_le σ⟩,
    ⟨effectiveness_score_nonneg σ, effectiveness_score_le σ⟩,
    ⟨compliance_score_nonneg σ, compliance_score_le σ⟩, ?_⟩
  intro hsum ht
  have hc : σ.collaboration_requests = 0 := by omega
  have hk : σ.knowledge_shares = 0 := by omega
  have hp : σ.help_requests = 0 := by omega
  exact ⟨collab_score_zero σ ht, knowledge_score_zero σ ht,
    effectiveness_score_zero σ ht hp, compliance_score_zero σ ht hc hk hp⟩

/-- Witness for C9 (amended): on the freshly constructed analyzer all four
scores are zero. -/
theorem scores_in_range_and_zero_witness :
    CommunicationAnalyzer.calculate_collaboration_score
        CommunicationAnalyzer.initState = 0
    ∧ CommunicationAnalyzer.calculate_knowledge_score
        CommunicationAnalyzer.initState = 0
    ∧ CommunicationAnalyzer.calculate_effectiveness_score
        CommunicationAnalyzer.initState = 0
    ∧ CommunicationAnalyzer.calculate_compliance_score
        CommunicationAnalyzer.initState = 0 :=
  (scores_in_range_and_zero CommunicationAnalyzer.initState).2.2.2.2
    (by decide) rfl

/-- The common check-function body: the percentage is the floor of 100
times the fraction of existing paths, capped at 100, and the status is
`"pending"` exactly when nothing exists. -/
theorem mk_progress_spec (agent task : String)
    (checks : List (String × String)) (fs : String → Bool) :
    (MonitorProgress.mkProgress agent task checks fs).completion_percentage
        ≤ 100
    ∧ (MonitorProgress.mkProgress agent task checks fs).completion_percentage
        = ⌊(100 : ℚ) * ((MonitorProgress.completedCount fs checks : ℚ)
            / (checks.length : ℚ))⌋₊
    ∧ ((MonitorProgress.mkProgress agent task checks fs).status = "pending"
        ↔ MonitorProgress.completedCount fs checks = 0)
    ∧ ((MonitorProgress.mkProgress agent task checks fs).status = "in_progress"
        ↔ 0 < MonitorProgress.completedCount fs checks) := by
  have hcL : MonitorProgress.completedCount fs checks ≤ checks.length :=
    List.length_filter_le _ _
  refine ⟨?_, ?_, ?_, ?_⟩
  · show MonitorProgress.completedCount fs checks * 100 / checks.length ≤ 100
    rcases Nat.eq_zero_or_pos checks.length with hL | hL
    · simp [hL]
    · calc MonitorProgress.completedCount fs checks * 100 / checks.length
          ≤ checks.length * 100 / checks.length :=
            Nat.div_le_div_right (Nat.mul_le_mul_right _ hcL)
        _ = 100 := Nat.mul_div_cancel_left _ hL
  · show MonitorProgress.completedCount fs checks * 100 / checks.length = _
    have hcast : (100 : ℚ) * ((MonitorProgress.completedCount fs checks : ℚ)
          / (checks.length : ℚ))
        = ((MonitorProgress.completedCount fs checks * 100 : ℕ) : ℚ)
            / ((checks.length : ℕ) : ℚ) := by
      push_cast
      ring
    rw [hcast, Nat.floor_div_nat, Nat.floor_natCast]
  · have hstat : (MonitorProgress.mkProgress agent task checks fs).status
        = (if 0 < MonitorProgress.completedCount fs checks then "in_progress"
           else "pending") := rfl
    rw [hstat]
    by_cases hc : 0 < MonitorProgress.completedCount fs checks
    · rw [if_pos hc]
      exact ⟨fun h => absurd h (by decide), fun h => absurd h (by omega)⟩
    · rw [if_neg hc]
      exact ⟨fun _ => by omega, fun _ => rfl⟩
  · have hstat : (MonitorProgress.mkProgress agent task checks fs).status
        = (if 0 < MonitorProgress.completedCount fs checks then "in_progress"
           else "pending") := rfl
    rw [hstat]
    by_cases hc : 0 < MonitorProgress.completedCount fs checks
    · rw [if_pos hc]
      exact ⟨fun _ => hc, fun _ => rfl⟩
    · rw [if_neg hc]
      exact ⟨fun h => absurd h (by decide), fun h => absurd h hc⟩

/-- C10: for every file-existence outcome, each progress-check function
reports a completion percentage equal to the floor of 100 times the
fraction of existing checklist paths (hence between 0 and 100), and status
`"pending"` exactly when no checked path exists, `"in_progress"`
otherwise. -/
theorem progress_checks_percentage_and_status (fs : String → Bool) :
    ((MonitorProgress.check_repository_setup fs).completion_percentage ≤ 100
      ∧ (MonitorProgress.check_repository_setup fs).completion_percentage
          = ⌊(100 : ℚ) * ((MonitorProgress.completedCount fs
                MonitorProgress.repository_checks : ℚ)
              / (MonitorProgress.repository_checks.length : ℚ))⌋₊
      ∧ ((MonitorProgress.check_repository_setup fs).status = "pending"
          ↔ MonitorProgress.completedCount fs
              MonitorProgress.repository_checks = 0)
      ∧ ((MonitorProgress.check_repository_setup fs).status = "in_progress"
          ↔ 0 < MonitorProgress.completedCount fs
              MonitorProgress.repository_checks))
    ∧ ((MonitorProgress.check_graphics_engine fs).completion_percentage ≤ 100
      ∧ (MonitorProgress.check_graphics_engine fs).completion_percentage
          = ⌊(100 : ℚ) * ((MonitorProgress.completedCount fs
                MonitorProgress.engine_checks : ℚ)
              / (MonitorProgress.engine_checks.length : ℚ))⌋₊
      ∧ ((MonitorProgress.check_graphics_engine fs).status = "pending"
          ↔ MonitorProgress.completedCount fs
              MonitorProgress.engine_checks = 0)
      ∧ ((MonitorProgress.check_graphics_engine fs).status = "in_progress"
          ↔ 0 < MonitorProgress.completedCount fs
              MonitorProgress.engine_checks))
    ∧ ((MonitorProgress.check_ui_components fs).completion_percentage ≤ 100
      ∧ (MonitorProgress.check_ui_components fs).completion_percentage
          = ⌊(100 : ℚ) * ((MonitorProgress.completedCount fs
                MonitorProgress.component_checks : ℚ)
              / (MonitorProgress.component_checks.length : ℚ))⌋₊
      ∧ ((MonitorProgress.check_ui_components fs).status = "pending"
          ↔ MonitorProgress.completedCount fs
              MonitorProgress.component_checks = 0)
      ∧ ((MonitorProgress.check_ui_components fs).status = "in_progress"
          ↔ 0 < MonitorProgress.completedCount fs
              MonitorProgress.component_checks))
    ∧ ((MonitorProgress.check_testing_framework fs).completion_percentage ≤ 100
      ∧ (MonitorProgress.check_testing_framework fs).completion_percentage
          = ⌊(100 : ℚ) * ((MonitorProgress.completedCount fs
                MonitorProgress.testing_checks : ℚ)
              / (MonitorProgress.testing_checks.length : ℚ))⌋₊
      ∧ ((MonitorProgress.check_testing_framework fs).status = "pending"
          ↔ MonitorProgress.completedCount fs
              MonitorProgress.testing_checks = 0)
      ∧ ((MonitorProgress.check_testing_framework fs).status = "in_progress"
          ↔ 0 < MonitorProgress.completedCount fs
              MonitorProgress.testing_checks)) :=
  ⟨mk_progress_spec "DEPLOYER_002" "Repository setup and build pipeline"
      MonitorProgress.repository_checks fs,
   mk_progress_spec "DEVELOPER_002" "High-performance graphics engine"
      MonitorProgress.engine_checks fs,
   mk_progress_spec "DEVELOPER_003" "Responsive UI components"
      MonitorProgress.component_checks fs,
   mk_progress_spec "TESTER_002" "E2E testing framework"
      MonitorProgress.testing_checks fs⟩

/-- Witness for C10: with every path present, `check_repository_setup`
reports status `"in_progress"`. -/
theorem progress_checks_percentage_and_status_witness :
    (MonitorProgress.check_repository_setup (fun _ => true)).status
        = "in_progress"
      ↔ 0 < MonitorProgress.completedCount (fun _ => true)
          MonitorProgress.repository_checks :=
  (progress_checks_percentage_and_status (fun _ => true)).1.2.2.2
